import Mathlib

/-!
Verification development for `pw-volume` (src/main.rs), a small CLI that
reads a PipeWire dump, resolves the default audio sink, and either issues
a mute/volume command or prints a status line.

The embedding is shallow: Rust `f64` values are modelled as `ℚ`,
`serde_json::Value` as the inductive `Json`, fallible deserialisation as
`Option`, and the effectful tail of `pw_dump` (spawning `pw-cli`,
printing) as the result type `PwOutput`.
-/

namespace PwVolume

/-- Model of `serde_json::Value`.  Numbers keep the distinction serde_json
makes between integer literals (`int`) and floating literals (`float`),
since deserialising an `i64` field succeeds only on the former. -/
inductive Json where
  | null
  | bool (b : Bool)
  | int (n : Int)
  | float (q : ℚ)
  | str (s : String)
  | arr (elems : List Json)
  | obj (fields : List (String × Json))

/-- Field lookup in a JSON object (first binding wins); `none` when the
value is not an object or the key is absent. -/
def Json.getField? : Json → String → Option Json
  | .obj fields, k => fields.findSome? (fun p => if p.1 = k then some p.2 else none)
  | _, _ => none

/-- Deserialising a Rust `&str` field: the JSON value must be a string. -/
def Json.asString? : Json → Option String
  | .str s => some s
  | _ => none

/-- Deserialising a Rust `f64` field: any JSON number is accepted. -/
def Json.asFloat? : Json → Option ℚ
  | .int n => some (n : ℚ)
  | .float q => some q
  | _ => none

/-- Deserialising a Rust `i64` field: only integer-literal numbers. -/
def Json.asInt? : Json → Option Int
  | .int n => some n
  | _ => none

/-- Deserialising a Rust `bool` field. -/
def Json.asBool? : Json → Option Bool
  | .bool b => some b
  | _ => none

/-- Deserialising a JSON array. -/
def Json.asArr? : Json → Option (List Json)
  | .arr elems => some elems
  | _ => none

/-- Rust struct `MetadataValue { name: &str }`. -/
structure MetadataValue where
  name : String
  deriving DecidableEq

/-- Rust struct `Metadata { key: &str, value: MetadataValue }`. -/
structure Metadata where
  key : String
  value : MetadataValue
  deriving DecidableEq

/-- Rust struct `PipeWireInterfaceMetadata { type: &str, metadata: Vec<Metadata> }`. -/
structure PipeWireInterfaceMetadata where
  typ : String
  metadata : List Metadata
  deriving DecidableEq

/-- Rust struct `NodeProps { node.name: &str }`. -/
structure NodeProps where
  node_name : String
  deriving DecidableEq

/-- Rust struct `NodeEnumFormat { channels: Option<i64> }`. -/
structure NodeEnumFormat where
  channels : Option Int
  deriving DecidableEq

/-- Rust struct `NodePropInfoTypeVolume { default: f64, min: f64, max: f64 }`. -/
structure NodePropInfoTypeVolume where
  default : ℚ
  min : ℚ
  max : ℚ
  deriving DecidableEq

/-- Rust struct `NodePropInfoVolume { id: &str, type: NodePropInfoTypeVolume }`. -/
structure NodePropInfoVolume where
  id : String
  typ : NodePropInfoTypeVolume
  deriving DecidableEq

/-- Rust untagged enum `NodePropInfo`: a recognised volume descriptor or a
generic JSON value. -/
inductive NodePropInfo where
  | volume (v : NodePropInfoVolume)
  | value (j : Json)

/-- Rust struct `NodePropVolume { volume: f64, mute: bool, channelVolumes: Vec<f64> }`. -/
structure NodePropVolume where
  volume : ℚ
  mute : Bool
  channel_volumes : List ℚ
  deriving DecidableEq

/-- Rust untagged enum `NodeProp`: a recognised live-volume entry or a
generic JSON value. -/
inductive NodeProp where
  | volume (v : NodePropVolume)
  | value (j : Json)

/-- Rust struct `NodeParams { EnumFormat, PropInfo, Props }`. -/
structure NodeParams where
  enum_format : List NodeEnumFormat
  prop_info : List NodePropInfo
  props : List NodeProp

/-- Rust struct `NodeInfo { props: NodeProps, params: NodeParams }`. -/
structure NodeInfo where
  props : NodeProps
  params : NodeParams

/-- Rust struct `PipeWireInterfaceNode { id: i64, type: &str, info: NodeInfo }`. -/
structure PipeWireInterfaceNode where
  id : Int
  typ : String
  info : NodeInfo

/-- Rust untagged enum `PipeWireObject`: metadata, node, or the generic
catch-all `Value` variant. -/
inductive PipeWireObject where
  | metadata (m : PipeWireInterfaceMetadata)
  | node (n : PipeWireInterfaceNode)
  | value (j : Json)

/-- Rust struct `PipeWireCommand { mute, volume, channelVolumes }` (the
serialised write-model; `volume` and `channel_volumes` are optional). -/
structure PipeWireCommand where
  mute : Bool
  volume : Option ℚ
  channel_volumes : Option (List ℚ)

/-- Serde serialisation of `PipeWireCommand` as an ordered field list:
`mute` always, then `volume` and `channelVolumes` only when set
(`skip_serializing_if = "Option::is_none"`). -/
def serializeCommand (c : PipeWireCommand) : List (String × Json) :=
  [("mute", Json.bool c.mute)]
    ++ (match c.volume with
        | some v => [("volume", Json.float v)]
        | none => [])
    ++ (match c.channel_volumes with
        | some vs => [("channelVolumes", Json.arr (vs.map Json.float))]
        | none => [])

/-- Keys present in the serialised command payload. -/
def serializedKeys (c : PipeWireCommand) : List String :=
  (serializeCommand c).map Prod.fst

/-- Rust `f64::clamp(min, max)`: `if self < min { min } else if self > max
{ max } else { self }`. -/
def clampQ (x mn mx : ℚ) : ℚ :=
  if x < mn then mn else if x > mx then mx else x

/-- Rust formatting `{:.0}` on an `f64`, modelled on `ℚ`: round to the
nearest integer, ties to even. -/
def roundTiesToEven (q : ℚ) : ℤ :=
  if q - ⌊q⌋ < 1/2 then ⌊q⌋
  else if 1/2 < q - ⌊q⌋ then ⌊q⌋ + 1
  else if ⌊q⌋ % 2 = 0 then ⌊q⌋ else ⌊q⌋ + 1

/-- The CLI subcommands reaching `pw_dump` (after clap validation):
`mute on|off|toggle`, `change <percent>` (with the percent value already
parsed from the `DELTA` string), `status`. -/
inductive Action where
  | muteOn
  | muteOff
  | muteToggle
  | changeBy (percent : ℚ)
  | status

/-- The error cases of `pw_dump` (each an `anyhow!`/`ensure!` message in
the source). -/
inductive PwError where
  | noDefaultSink
  | sinkNodeNotFound (name : String)
  | noVolumeRange (nodeId : Int)
  | invalidVolumeRange (min max : ℚ)
  | noVolumeState (nodeId : Int)
  | noChannels
  deriving DecidableEq

/-- What the `status` subcommand prints.  `muted` stands for the literal
line `println!(r#"{{"alt":"mute", "tooltip":"muted"}}"#)`.  `unmuted pf tp`
stands for `println!(r#"{{"percentage":{:.0}, "tooltip":"{}%"}}"#,
percentage, percentage)` where `pf` is the `{:.0}`-rounded percentage
field and `tp` is the value shown (unrounded) in the tooltip text. -/
inductive StatusView where
  | muted
  | unmuted (percentageField : Int) (tooltipPercentage : ℚ)

/-- The observable outcome of a successful `pw_dump` run: either invoke
`pw-cli set-param <nodeId> Props <payload>`, or (for `status`) print one
status line. -/
inductive PwOutput where
  | runCommand (nodeId : Int) (cmd : PipeWireCommand)
  | printStatus (view : StatusView)

/-- The metadata entries of all `PipeWire:Interface:Metadata` objects, in
dump insertion order (the `filter_map`/`flat_map` chain at the top of
`pw_dump`). -/
def flattenedMetaEntries (obj : List PipeWireObject) : List Metadata :=
  (obj.filterMap (fun o =>
    match o with
    | .metadata md => if md.typ = "PipeWire:Interface:Metadata" then some md else none
    | _ => none)).flatMap (fun md => md.metadata)

/-- Resolution step 1 of `pw_dump`: the first `default.audio.sink`
metadata entry's value name. -/
def findDefaultSink (obj : List PipeWireObject) : Option String :=
  (flattenedMetaEntries obj).findSome? (fun md =>
    if md.key = "default.audio.sink" then some md.value.name else none)

/-- Resolution step 2 of `pw_dump`: the first node whose type is the Node
interface and whose `node.name` equals the resolved sink name. -/
def findSinkNode (obj : List PipeWireObject) (sink : String) : Option PipeWireInterfaceNode :=
  obj.findSome? (fun o =>
    match o with
    | .node n =>
        if n.typ = "PipeWire:Interface:Node" ∧ n.info.props.node_name = sink
        then some n else none
    | _ => none)

/-- Resolution step 3 of `pw_dump`: the volume-range descriptor, the
first `PropInfo` entry recognised as a volume descriptor with id
`channelVolumes`. -/
def findVolumeProp (node : PipeWireInterfaceNode) : Option NodePropInfoTypeVolume :=
  node.info.params.prop_info.findSome? (fun p =>
    match p with
    | .volume v => if v.id = "channelVolumes" then some v.typ else none
    | _ => none)

/-- Resolution step 5 of `pw_dump`: the first `Props` entry recognised as
a live volume/mute state. -/
def findVolumeStatus (node : PipeWireInterfaceNode) : Option NodePropVolume :=
  node.info.params.props.findSome? (fun p =>
    match p with
    | .volume v => some v
    | _ => none)

/-- Shallow embedding of `pw_dump` from src/main.rs: resolve the default
sink, validate the range and channel list, then build the command payload
(or the status view) for the requested action.  The trailing
`pw-cli`/`println!` effects are reflected in the returned `PwOutput`. -/
def pw_dump (obj : List PipeWireObject) (act : Action) : Except PwError PwOutput :=
  match findDefaultSink obj with
  | none => .error .noDefaultSink
  | some default_audio_sink =>
    match findSinkNode obj default_audio_sink with
    | none => .error (.sinkNodeNotFound default_audio_sink)
    | some node =>
      match findVolumeProp node with
      | none => .error (.noVolumeRange node.id)
      | some volume_prop =>
        if volume_prop.max - volume_prop.min > 0 then
          match findVolumeStatus node with
          | none => .error (.noVolumeState node.id)
          | some status =>
            if status.channel_volumes = [] then .error .noChannels
            else
              match act with
              | .muteOn =>
                  .ok (.runCommand node.id
                    { mute := true, volume := none, channel_volumes := none })
              | .muteToggle =>
                  .ok (.runCommand node.id
                    { mute := !status.mute, volume := none, channel_volumes := none })
              | .muteOff =>
                  .ok (.runCommand node.id
                    { mute := false, volume := none, channel_volumes := none })
              | .changeBy percent =>
                  .ok (.runCommand node.id
                    { mute := false
                      volume := none
                      channel_volumes := some (status.channel_volumes.map (fun vol =>
                        clampQ (vol + percent * (volume_prop.max - volume_prop.min) / 100)
                          volume_prop.min volume_prop.max)) })
              | .status =>
                  .ok (.printStatus
                    (if status.mute then .muted
                     else
                       .unmuted
                         (roundTiesToEven
                           (status.channel_volumes.headI * 100
                             / (volume_prop.max - volume_prop.min)))
                         (status.channel_volumes.headI * 100
                           / (volume_prop.max - volume_prop.min))))
        else .error (.invalidVolumeRange volume_prop.min volume_prop.max)

/-- Serde deserialisation of `MetadataValue { name: &str }`: the value
must be an object carrying a string field `name`; unknown fields are
ignored. -/
def parseMetadataValue (j : Json) : Option MetadataValue := do
  let name ← (j.getField? "name").bind Json.asString?
  some ⟨name⟩

/-- Serde deserialisation of `Metadata { key, value }`. -/
def parseMetadataEntry (j : Json) : Option Metadata := do
  let key ← (j.getField? "key").bind Json.asString?
  let value ← (j.getField? "value").bind parseMetadataValue
  some ⟨key, value⟩

/-- Serde deserialisation of the `PipeWireInterfaceMetadata` struct: a
string `type` field and a `metadata` array whose every element parses as
a `Metadata` entry. -/
def parseMetadataObject (j : Json) : Option PipeWireInterfaceMetadata := do
  let typ ← (j.getField? "type").bind Json.asString?
  let entries ← (j.getField? "metadata").bind Json.asArr?
  let metadata ← entries.mapM parseMetadataEntry
  some ⟨typ, metadata⟩

/-- Serde deserialisation of `NodeEnumFormat { channels: Option<i64> }`:
the element must be an object; a missing or null `channels` gives `none`,
an integer gives `some`, anything else fails. -/
def parseEnumFormat (j : Json) : Option NodeEnumFormat :=
  match j with
  | .obj _ =>
      match j.getField? "channels" with
      | none => some ⟨none⟩
      | some .null => some ⟨none⟩
      | some (.int n) => some ⟨some n⟩
      | some _ => none
  | _ => none

/-- Serde deserialisation of the untagged `NodePropInfo`: first try the
`NodePropInfoVolume` shape (string `id`, object `type` with numeric
`default`/`min`/`max`); on failure fall back to the generic `Value`
variant, which always succeeds. -/
def parsePropInfo (j : Json) : NodePropInfo :=
  match (do
    let id ← (j.getField? "id").bind Json.asString?
    let t ← j.getField? "type"
    let d ← (t.getField? "default").bind Json.asFloat?
    let mn ← (t.getField? "min").bind Json.asFloat?
    let mx ← (t.getField? "max").bind Json.asFloat?
    some (NodePropInfoVolume.mk id ⟨d, mn, mx⟩) : Option NodePropInfoVolume) with
  | some v => .volume v
  | none => .value j

/-- Serde deserialisation of the untagged `NodeProp`: first try the
`NodePropVolume` shape (`volume` number, `mute` bool, `channelVolumes`
array of numbers); on failure fall back to the generic `Value` variant. -/
def parseProp (j : Json) : NodeProp :=
  match (do
    let volume ← (j.getField? "volume").bind Json.asFloat?
    let mute ← (j.getField? "mute").bind Json.asBool?
    let cv ← (j.getField? "channelVolumes").bind Json.asArr?
    let channel_volumes ← cv.mapM Json.asFloat?
    some (NodePropVolume.mk volume mute channel_volumes) : Option NodePropVolume) with
  | some v => .volume v
  | none => .value j

/-- Serde deserialisation of the `PipeWireInterfaceNode` struct: integer
`id`, string `type`, and an `info` object carrying `props` (with a string
`node.name`) and `params` (with `EnumFormat`, `PropInfo`, `Props`
arrays); any missing or mistyped required field fails the whole node. -/
def parseNodeObject (j : Json) : Option PipeWireInterfaceNode := do
  let id ← (j.getField? "id").bind Json.asInt?
  let typ ← (j.getField? "type").bind Json.asString?
  let info ← j.getField? "info"
  let propsObj ← info.getField? "props"
  let node_name ← (propsObj.getField? "node.name").bind Json.asString?
  let params ← info.getField? "params"
  let efs ← (params.getField? "EnumFormat").bind Json.asArr?
  let enum_format ← efs.mapM parseEnumFormat
  let pInfos ← (params.getField? "PropInfo").bind Json.asArr?
  let prs ← (params.getField? "Props").bind Json.asArr?
  some ⟨id, typ, ⟨⟨node_name⟩, ⟨enum_format, pInfos.map parsePropInfo, prs.map parseProp⟩⟩⟩

/-- Serde deserialisation of the untagged `PipeWireObject`: the variants
are tried in declaration order (`Metadata`, then `Node`, then the
catch-all `Value`, which cannot fail). -/
def parsePipeWireObject (j : Json) : PipeWireObject :=
  match parseMetadataObject j with
  | some m => .metadata m
  | none =>
      match parseNodeObject j with
      | some n => .node n
      | none => .value j

/-- Deserialisation of the whole dump, `Vec<PipeWireObject>`: every
element is parsed in order (element parsing is total thanks to the
catch-all variant). -/
def parseDump (js : List Json) : List PipeWireObject :=
  js.map parsePipeWireObject

/-- Strip one leading `+` or `-` sign (the `Sign?` part of Rust's float
grammar). -/
def stripSign : List Char → List Char
  | '+' :: rest => rest
  | '-' :: rest => rest
  | cs => cs

/-- The optional-exponent tail of Rust's float grammar: either nothing,
or `e`/`E`, an optional sign, and at least one digit consuming the rest. -/
def rustExpPart (cs : List Char) : Bool :=
  match cs with
  | [] => true
  | c :: rest =>
      if c = 'e' ∨ c = 'E' then
        !(stripSign rest).isEmpty && (stripSign rest).all Char.isDigit
      else false

/-- The `Number` production of Rust's float grammar:
`Count '.'? Count? Exp? | '.' Count Exp?` (at least one digit overall),
expressed with `takeWhile`/`dropWhile` splitting off the digit runs. -/
def rustNumberBody (cs : List Char) : Bool :=
  match cs.dropWhile Char.isDigit with
  | '.' :: r2 =>
      if (cs.takeWhile Char.isDigit).isEmpty && (r2.takeWhile Char.isDigit).isEmpty
      then false
      else rustExpPart (r2.dropWhile Char.isDigit)
  | r1 => if (cs.takeWhile Char.isDigit).isEmpty then false else rustExpPart r1

/-- Modelled from Rust's documented `f32::from_str` grammar:
`Sign? ('inf' | 'infinity' | 'nan' | Number)`, keywords matched
case-insensitively.  Overflow never fails, so grammar acceptance is
exactly parse success. -/
def rustFloatAccepts (cs : List Char) : Bool :=
  if (stripSign cs).map Char.toLower = "inf".toList
      ∨ (stripSign cs).map Char.toLower = "infinity".toList
      ∨ (stripSign cs).map Char.toLower = "nan".toList
  then true
  else rustNumberBody (stripSign cs)

/-- Rust `str::strip_suffix("%")` on a character list: the part before a
trailing percent sign, or `none` when the string does not end in `%`. -/
def stripPercent (cs : List Char) : Option (List Char) :=
  match cs.reverse with
  | '%' :: restRev => some restRev.reverse
  | _ => none

/-- Rust `is_decimal_percentage`: strip a trailing `%` and check the
remainder parses as an `f32`. -/
def is_decimal_percentage (value : String) : Bool :=
  match stripPercent value.toList with
  | some body => rustFloatAccepts body
  | none => false

/-- The decimal-number shape `NUMBER`: a digit run, optionally followed
by a decimal point and a digit run, with at least one digit overall. -/
def decimalNumberCheck (cs : List Char) : Bool :=
  match cs.dropWhile Char.isDigit with
  | [] => !(cs.takeWhile Char.isDigit).isEmpty
  | '.' :: r2 =>
      (!(cs.takeWhile Char.isDigit).isEmpty || !r2.isEmpty) && r2.all Char.isDigit
  | _ => false

/-- Modelled from the spec: the pattern `[+-]?NUMBER%` — an optional
sign, then a decimal number (digits with an optional single decimal
point and at least one digit), then a percent sign. -/
def matchesSignedDecimalPercent (value : String) : Bool :=
  match stripPercent value.toList with
  | some body => decimalNumberCheck (stripSign body)
  | none => false

/-- Fixture: a metadata object naming `sinkA` as the default audio sink. -/
def cxMeta : PipeWireObject :=
  .metadata ⟨"PipeWire:Interface:Metadata", [⟨"default.audio.sink", ⟨"sinkA"⟩⟩]⟩

/-- Fixture: the resolved node record for `sinkA`, with volume range
`[0, 1]`, current channel volume `51/200` (= `0.255`), unmuted. -/
def cxNodeRec : PipeWireInterfaceNode :=
  ⟨42, "PipeWire:Interface:Node",
    ⟨⟨"sinkA"⟩,
      ⟨[⟨some 2⟩],
        [.volume ⟨"channelVolumes", ⟨1, 0, 1⟩⟩],
        [.volume ⟨51/200, false, [51/200]⟩]⟩⟩⟩

/-- Fixture: the node object wrapping `cxNodeRec`. -/
def cxNode : PipeWireObject := .node cxNodeRec

/-- Fixture: a two-object dump with one metadata object and one matching
sink node. -/
def cxDump : List PipeWireObject := [cxMeta, cxNode]

/-- Fixture: a sink node like `cxNodeRec` but with a degenerate volume
range `min = max = 1/2`. -/
def cxBadRangeNodeRec : PipeWireInterfaceNode :=
  ⟨43, "PipeWire:Interface:Node",
    ⟨⟨"sinkA"⟩,
      ⟨[⟨some 2⟩],
        [.volume ⟨"channelVolumes", ⟨1/2, 1/2, 1/2⟩⟩],
        [.volume ⟨1/2, false, [1/2]⟩]⟩⟩⟩

/-- Fixture: dump whose sink node declares the degenerate range. -/
def cxBadRangeDump : List PipeWireObject := [cxMeta, .node cxBadRangeNodeRec]

/-- Fixture: a sink node like `cxNodeRec` but currently muted, channel
volume `3/4`. -/
def cxMutedNodeRec : PipeWireInterfaceNode :=
  ⟨44, "PipeWire:Interface:Node",
    ⟨⟨"sinkA"⟩,
      ⟨[⟨some 2⟩],
        [.volume ⟨"channelVolumes", ⟨1, 0, 1⟩⟩],
        [.volume ⟨3/4, true, [3/4]⟩]⟩⟩⟩

/-- Fixture: dump whose sink node is muted. -/
def cxMutedDump : List PipeWireObject := [cxMeta, .node cxMutedNodeRec]

/-- Fixture: raw JSON for a well-formed metadata object naming `mysink`
as the default audio sink. -/
def exampleMetaJson : Json :=
  .obj [("type", .str "PipeWire:Interface:Metadata"),
        ("metadata", .arr [.obj [("key", .str "default.audio.sink"),
                                 ("value", .obj [("name", .str "mysink")])]])]

/-- Fixture: raw JSON for an object that partially matches the Node
shape — it carries `node.name = "mysink"` but its `params` lacks the
required `EnumFormat` field. -/
def examplePartialNodeJson : Json :=
  .obj [("id", .int 7),
        ("type", .str "PipeWire:Interface:Node"),
        ("info", .obj [("props", .obj [("node.name", .str "mysink")]),
                       ("params", .obj [("PropInfo", .arr []),
                                        ("Props", .arr [])])])]

/-- Fixture: raw JSON for a malformed metadata object (its `metadata`
field is a string, not an array). -/
def exampleBadMetaJson : Json :=
  .obj [("type", .str "PipeWire:Interface:Metadata"),
        ("metadata", .str "oops")]

/-- Helper: `findSome?` of a guarded selector is `find?` followed by the
selection. -/
theorem findSome?_guard {α β : Type} (p : α → Prop) [DecidablePred p] (f : α → β) :
    ∀ l : List α,
      l.findSome? (fun a => if p a then some (f a) else none)
        = (l.find? (fun a => decide (p a))).map f := by
  intro l
  induction l with
  | nil => rfl
  | cons a l ih =>
      by_cases h : p a
      · simp [List.findSome?_cons, List.find?_cons, h]
      · simp [List.findSome?_cons, List.find?_cons, h, ih]

/-- Helper: pairs of a list zipped with its own image under `f`. -/
theorem zip_map_snd {α β : Type} (f : α → β) :
    ∀ (l : List α) (pr : α × β), pr ∈ l.zip (l.map f) → pr.2 = f pr.1 := by
  intro l
  induction l with
  | nil => intro pr h; cases h
  | cons a l ih =>
      intro pr h
      rw [List.map_cons, List.zip_cons_cons, List.mem_cons] at h
      rcases h with h | h
      · rw [h]
      · exact ih _ h

/-- Helper: `roundTiesToEven` lands on a nearest integer. -/
theorem roundTiesToEven_nearest (q : ℚ) : |q - (roundTiesToEven q : ℚ)| ≤ 1/2 := by
  have h0 : (0:ℚ) ≤ q - ⌊q⌋ := by
    have := Int.floor_le q
    linarith
  have h1 : q - ⌊q⌋ < 1 := by
    have := Int.lt_floor_add_one q
    linarith
  unfold roundTiesToEven
  split
  · rename_i hfr
    rw [abs_le]
    constructor <;> linarith
  · rename_i hfr1
    split
    · rename_i hfr2
      rw [abs_le]
      push_cast
      constructor <;> linarith
    · rename_i hfr2
      have htie : q - ⌊q⌋ = 1/2 := le_antisymm (not_lt.mp hfr2) (not_lt.mp hfr1)
      split
      · rw [abs_le]
        constructor <;> linarith
      · rw [abs_le]
        push_cast
        constructor <;> linarith

/-- Helper: once the six resolution steps succeed, `pw_dump` reduces to
the per-action tail of the source function. -/
theorem pw_dump_resolved (obj : List PipeWireObject) (act : Action) (sink : String)
    (node : PipeWireInterfaceNode) (vp : NodePropInfoTypeVolume) (st : NodePropVolume)
    (h1 : findDefaultSink obj = some sink) (h2 : findSinkNode obj sink = some node)
    (h3 : findVolumeProp node = some vp) (h4 : vp.max - vp.min > 0)
    (h5 : findVolumeStatus node = some st) (h6 : ¬ st.channel_volumes = []) :
    pw_dump obj act =
      (match act with
       | .muteOn => .ok (.runCommand node.id ⟨true, none, none⟩)
       | .muteToggle => .ok (.runCommand node.id ⟨!st.mute, none, none⟩)
       | .muteOff => .ok (.runCommand node.id ⟨false, none, none⟩)
       | .changeBy percent =>
           .ok (.runCommand node.id
             ⟨false, none,
               some (st.channel_volumes.map (fun vol =>
                 clampQ (vol + percent * (vp.max - vp.min) / 100) vp.min vp.max))⟩)
       | .status =>
           .ok (.printStatus
             (if st.mute then .muted
              else
                .unmuted
                  (roundTiesToEven (st.channel_volumes.headI * 100 / (vp.max - vp.min)))
                  (st.channel_volumes.headI * 100 / (vp.max - vp.min))))) := by
  unfold pw_dump
  simp only [h1, h2, h3, h5, if_pos h4, if_neg h6]

/-- Helper: on a list of elements all satisfying `p`, `takeWhile` keeps
everything and `dropWhile` drops everything. -/
theorem takeWhile_dropWhile_of_all {α : Type} (p : α → Bool) :
    ∀ l : List α, l.all p = true → l.takeWhile p = l ∧ l.dropWhile p = [] := by
  intro l
  induction l with
  | nil => intro _; exact ⟨rfl, rfl⟩
  | cons a l ih =>
      intro h
      rw [List.all_cons, Bool.and_eq_true] at h
      obtain ⟨hih1, hih2⟩ := ih h.2
      rw [List.takeWhile_cons, List.dropWhile_cons]
      rw [if_pos h.1, if_pos h.1, hih1, hih2]
      exact ⟨rfl, rfl⟩

/-- Helper: every decimal-number body is accepted by the `Number`
production of Rust's float grammar. -/
theorem decimal_implies_number (cs : List Char) (h : decimalNumberCheck cs = true) :
    rustNumberBody cs = true := by
  unfold decimalNumberCheck at h
  unfold rustNumberBody
  cases hdw : cs.dropWhile Char.isDigit with
  | nil =>
      rw [hdw] at h
      rw [Bool.not_eq_true'] at h
      show (if (cs.takeWhile Char.isDigit).isEmpty = true then false else rustExpPart []) = true
      rw [if_neg (by simp [h])]
      rfl
  | cons c r2 =>
      rw [hdw] at h
      split at h
      · rename_i heq
        exact absurd heq (by simp)
      · rename_i r2' heq
        injection heq with hc hr
        subst hc
        subst hr
        rw [Bool.and_eq_true, Bool.or_eq_true] at h
        obtain ⟨hor, hall⟩ := h
        obtain ⟨htw, hdw2⟩ := takeWhile_dropWhile_of_all Char.isDigit r2 hall
        show (if ((cs.takeWhile Char.isDigit).isEmpty && (r2.takeWhile Char.isDigit).isEmpty) = true
              then false else rustExpPart (r2.dropWhile Char.isDigit)) = true
        rw [htw, hdw2]
        have hcond : ¬(((cs.takeWhile Char.isDigit).isEmpty && r2.isEmpty) = true) := by
          rcases hor with h' | h' <;> rw [Bool.not_eq_true'] at h' <;> simp [h']
        rw [if_neg hcond]
        rfl
      · exact absurd h (by simp)

/-- C6 (amended): every string of the form `[+-]?NUMBER%` is accepted by
the change argument validator; acceptance is strictly wider than that
pattern, since the validator also accepts anything whose body parses
under Rust's `f32` grammar (`inf`, `nan`, exponent forms). -/
theorem change_argument_validation (s : String)
    (h : matchesSignedDecimalPercent s = true) : is_decimal_percentage s = true := by
  unfold matchesSignedDecimalPercent at h
  unfold is_decimal_percentage
  cases hsp : stripPercent s.toList with
  | none => rw [hsp] at h; exact absurd h (by simp)
  | some body =>
      rw [hsp] at h
      show rustFloatAccepts body = true
      unfold rustFloatAccepts
      split
      · rfl
      · exact decimal_implies_number _ h

/-- C6 witness: `+1%` matches the signed-decimal-percent pattern and is
accepted by the validator. -/
theorem change_argument_validation_witness :
    matchesSignedDecimalPercent "+1%" = true ∧ is_decimal_percentage "+1%" = true :=
  ⟨by decide, change_argument_validation "+1%" (by decide)⟩

/-- C6 counterexample: the claim's "if and only if" fails — `inf%` and
`nan%` are accepted by `is_decimal_percentage` although they do not match
the `[+-]?NUMBER%` pattern (their bodies contain no digits at all). -/
theorem change_argument_counterexample :
    is_decimal_percentage "inf%" = true ∧ matchesSignedDecimalPercent "inf%" = false
      ∧ is_decimal_percentage "nan%" = true ∧ matchesSignedDecimalPercent "nan%" = false :=
  ⟨by decide, by decide, by decide, by decide⟩

/-- C3: if no metadata entry of a Metadata-interface object has key
`default.audio.sink`, `pw_dump` fails with `noDefaultSink` whatever the
action; otherwise the resolved sink name is the value name of the first
such entry in dump insertion order. -/
theorem default_sink_resolution (obj : List PipeWireObject) (act : Action) :
    ((∀ e ∈ flattenedMetaEntries obj, e.key ≠ "default.audio.sink") →
        pw_dump obj act = Except.error PwError.noDefaultSink)
    ∧ (∀ e : Metadata,
        (flattenedMetaEntries obj).find? (fun x => decide (x.key = "default.audio.sink")) = some e →
        findDefaultSink obj = some e.value.name) := by
  constructor
  · intro h
    have hfind : (flattenedMetaEntries obj).find?
        (fun x => decide (x.key = "default.audio.sink")) = none :=
      List.find?_eq_none.mpr (fun x hx => by simpa using h x hx)
    have hnone : findDefaultSink obj = none := by
      unfold findDefaultSink
      rw [findSome?_guard (fun md : Metadata => md.key = "default.audio.sink")
            (fun md => md.value.name) (flattenedMetaEntries obj), hfind]
      rfl
    unfold pw_dump
    rw [hnone]
  · intro e he
    unfold findDefaultSink
    rw [findSome?_guard (fun md : Metadata => md.key = "default.audio.sink")
          (fun md => md.value.name) (flattenedMetaEntries obj), he]
    rfl

/-- C3 witness: the empty dump has no default-sink entry and fails with
`noDefaultSink`; on the concrete dump `cxDump` the first matching entry
resolves to `sinkA`. -/
theorem default_sink_resolution_witness :
    pw_dump [] Action.status = Except.error PwError.noDefaultSink
      ∧ findDefaultSink cxDump = some "sinkA" :=
  ⟨(default_sink_resolution [] Action.status).1 (by intro e he; simp [flattenedMetaEntries] at he),
   (default_sink_resolution cxDump Action.status).2 ⟨"default.audio.sink", ⟨"sinkA"⟩⟩ rfl⟩

/-- C4: when the resolved volume range has non-positive span, `pw_dump`
fails with `invalidVolumeRange` carrying min and max, for every action,
so no command payload is produced. -/
theorem invalid_volume_range_fails (obj : List PipeWireObject) (act : Action)
    (sink : String) (node : PipeWireInterfaceNode) (vp : NodePropInfoTypeVolume)
    (h1 : findDefaultSink obj = some sink) (h2 : findSinkNode obj sink = some node)
    (h3 : findVolumeProp node = some vp) (h4 : ¬ vp.max - vp.min > 0) :
    pw_dump obj act = Except.error (PwError.invalidVolumeRange vp.min vp.max) := by
  unfold pw_dump
  simp only [h1, h2, h3, if_neg h4]

/-- C4 witness: on `cxBadRangeDump`, whose sink declares `min = max = 1/2`,
`pw_dump` fails with `invalidVolumeRange (1/2) (1/2)`. -/
theorem invalid_volume_range_fails_witness :
    pw_dump cxBadRangeDump Action.muteOn
      = Except.error (PwError.invalidVolumeRange (1/2) (1/2)) :=
  invalid_volume_range_fails cxBadRangeDump Action.muteOn "sinkA" cxBadRangeNodeRec
    ⟨1/2, 1/2, 1/2⟩ rfl rfl rfl (by norm_num)

/-- Helper: the `{:.0}` rounding of the percentage `25.5` (a tie) goes to
the even neighbour's successor 26, since the floor 25 is odd. -/
theorem roundTiesToEven_tie : roundTiesToEven ((51:ℚ)/2) = 26 := by
  have hf : ⌊(51:ℚ)/2⌋ = 25 := by
    rw [Int.floor_eq_iff]
    norm_num
  unfold roundTiesToEven
  rw [hf]
  norm_num

/-- C1 (amended): for every resolved state, `status` prints the muted
line when `mute` is set, and otherwise prints percentage
`channelVolumes[0] * 100 / range` with the `percentage` field rounded to
the nearest integer (ties to even) while the tooltip text shows the
unrounded percentage value; the rounded field is within `1/2` of the
exact percentage. -/
theorem status_action_output (obj : List PipeWireObject) (sink : String)
    (node : PipeWireInterfaceNode) (vp : NodePropInfoTypeVolume) (st : NodePropVolume)
    (h1 : findDefaultSink obj = some sink) (h2 : findSinkNode obj sink = some node)
    (h3 : findVolumeProp node = some vp) (h4 : vp.max - vp.min > 0)
    (h5 : findVolumeStatus node = some st) (h6 : ¬ st.channel_volumes = []) :
    pw_dump obj Action.status = Except.ok (PwOutput.printStatus
      (if st.mute then StatusView.muted
       else
         StatusView.unmuted
           (roundTiesToEven (st.channel_volumes.headI * 100 / (vp.max - vp.min)))
           (st.channel_volumes.headI * 100 / (vp.max - vp.min))))
    ∧ |st.channel_volumes.headI * 100 / (vp.max - vp.min)
        - (roundTiesToEven (st.channel_volumes.headI * 100 / (vp.max - vp.min)) : ℚ)| ≤ 1/2 := by
  refine ⟨?_, roundTiesToEven_nearest _⟩
  rw [pw_dump_resolved obj Action.status sink node vp st h1 h2 h3 h4 h5 h6]

/-- C1 witness: on the muted fixture, `status` prints the muted line; the
rounded percentage of the unmuted formula stays within `1/2` of the exact
value. -/
theorem status_action_output_witness :
    pw_dump cxMutedDump Action.status = Except.ok (PwOutput.printStatus StatusView.muted)
      ∧ |(3:ℚ)/4 * 100 / (1 - 0) - (roundTiesToEven ((3:ℚ)/4 * 100 / (1 - 0)) : ℚ)| ≤ 1/2 := by
  have h := status_action_output cxMutedDump "sinkA" cxMutedNodeRec ⟨1, 0, 1⟩
    ⟨3/4, true, [3/4]⟩ rfl rfl rfl (by norm_num) rfl (by simp)
  exact ⟨h.1, h.2⟩

/-- C1 counterexample: with range `[0, 1]` and channel volume `0.255`,
the status percentage is `25.5`; the printed `percentage` field is the
rounded `26`, but the tooltip text carries the unrounded `25.5`, not the
rounded integer the claim asserts for the tooltip. -/
theorem status_tooltip_counterexample :
    pw_dump cxDump Action.status
      = Except.ok (PwOutput.printStatus (StatusView.unmuted 26 ((51:ℚ)/2)))
      ∧ ((51:ℚ)/2) ≠ ((26:ℤ) : ℚ) := by
  constructor
  · rw [pw_dump_resolved cxDump Action.status "sinkA" cxNodeRec ⟨1, 0, 1⟩
        ⟨51/200, false, [51/200]⟩ rfl rfl rfl (by norm_num) rfl (by simp)]
    have h2 : ((51:ℚ)/200 * 100 / (1 - 0)) = 51/2 := by norm_num
    show Except.ok (PwOutput.printStatus
      (StatusView.unmuted (roundTiesToEven ((51:ℚ)/200 * 100 / (1 - 0)))
        ((51:ℚ)/200 * 100 / (1 - 0)))) = _
    rw [h2, roundTiesToEven_tie]
  · norm_num

/-- Helper: the `changeBy` tail of `pw_dump`, shared by the relative-
change claims. -/
theorem pw_dump_changeBy (obj : List PipeWireObject) (sink : String)
    (node : PipeWireInterfaceNode) (vp : NodePropInfoTypeVolume) (st : NodePropVolume)
    (p : ℚ)
    (h1 : findDefaultSink obj = some sink) (h2 : findSinkNode obj sink = some node)
    (h3 : findVolumeProp node = some vp) (h4 : vp.max - vp.min > 0)
    (h5 : findVolumeStatus node = some st) (h6 : ¬ st.channel_volumes = []) :
    pw_dump obj (Action.changeBy p) = Except.ok (PwOutput.runCommand node.id
      { mute := false
        volume := none
        channel_volumes := some (st.channel_volumes.map (fun vol =>
          clampQ (vol + p * (vp.max - vp.min) / 100) vp.min vp.max)) }) := by
  rw [pw_dump_resolved obj (Action.changeBy p) sink node vp st h1 h2 h3 h4 h5 h6]

/-- C2: for every resolved state and percentage `p`, `changeBy p` issues
a command on the resolved node whose channel list maps every old volume
to `clamp(old + p * (max - min) / 100, min, max)`, whose mute flag is
`false` regardless of the current mute state, and whose serialisation
carries exactly the `mute` and `channelVolumes` keys (no `volume`). -/
theorem change_by_payload (obj : List PipeWireObject) (sink : String)
    (node : PipeWireInterfaceNode) (vp : NodePropInfoTypeVolume) (st : NodePropVolume)
    (p : ℚ)
    (h1 : findDefaultSink obj = some sink) (h2 : findSinkNode obj sink = some node)
    (h3 : findVolumeProp node = some vp) (h4 : vp.max - vp.min > 0)
    (h5 : findVolumeStatus node = some st) (h6 : ¬ st.channel_volumes = []) :
    pw_dump obj (Action.changeBy p) = Except.ok (PwOutput.runCommand node.id
      { mute := false
        volume := none
        channel_volumes := some (st.channel_volumes.map (fun vol =>
          clampQ (vol + p * (vp.max - vp.min) / 100) vp.min vp.max)) })
    ∧ serializedKeys
        { mute := false
          volume := none
          channel_volumes := some (st.channel_volumes.map (fun vol =>
            clampQ (vol + p * (vp.max - vp.min) / 100) vp.min vp.max)) }
        = ["mute", "channelVolumes"] :=
  ⟨pw_dump_changeBy obj sink node vp st p h1 h2 h3 h4 h5 h6, rfl⟩

/-- C2 witness: on the concrete dump, `changeBy 10` with range `[0, 1]`
moves the single channel from `0.255` to `0.355`. -/
theorem change_by_payload_witness :
    pw_dump cxDump (Action.changeBy 10) = Except.ok (PwOutput.runCommand 42
      { mute := false, volume := none, channel_volumes := some [(71:ℚ)/200] }) := by
  have h := (change_by_payload cxDump "sinkA" cxNodeRec ⟨1, 0, 1⟩ ⟨51/200, false, [51/200]⟩
    10 rfl rfl rfl (by norm_num) rfl (by simp)).1
  rw [h]
  norm_num [clampQ, cxNodeRec]

/-- C7: `changeBy` is monotonic — under a resolved state, for every
channel, a positive `p` yields a new volume that is at least the old one
unless it was clamped down to `max`, and a negative `p` yields a new
volume that is at most the old one unless it was clamped up to `min`. -/
theorem change_by_monotone (obj : List PipeWireObject) (sink : String)
    (node : PipeWireInterfaceNode) (vp : NodePropInfoTypeVolume) (st : NodePropVolume)
    (p : ℚ)
    (h1 : findDefaultSink obj = some sink) (h2 : findSinkNode obj sink = some node)
    (h3 : findVolumeProp node = some vp) (h4 : vp.max - vp.min > 0)
    (h5 : findVolumeStatus node = some st) (h6 : ¬ st.channel_volumes = []) :
    ∃ vols : List ℚ,
      pw_dump obj (Action.changeBy p) = Except.ok (PwOutput.runCommand node.id
        { mute := false, volume := none, channel_volumes := some vols })
      ∧ ∀ pr ∈ st.channel_volumes.zip vols,
          (0 < p → pr.1 ≤ pr.2 ∨ pr.2 = vp.max) ∧ (p < 0 → pr.2 ≤ pr.1 ∨ pr.2 = vp.min) := by
  refine ⟨st.channel_volumes.map (fun vol =>
      clampQ (vol + p * (vp.max - vp.min) / 100) vp.min vp.max),
    pw_dump_changeBy obj sink node vp st p h1 h2 h3 h4 h5 h6, ?_⟩
  intro pr hpr
  have hsnd := zip_map_snd _ _ pr hpr
  constructor
  · intro hp
    have hincpos : 0 < p * (vp.max - vp.min) / 100 := by
      apply div_pos (mul_pos hp h4)
      norm_num
    rw [hsnd]
    unfold clampQ
    split
    · rename_i hlt
      left
      linarith
    · split
      · right; rfl
      · left; linarith
  · intro hp
    have hincneg : p * (vp.max - vp.min) / 100 < 0 := by
      apply div_neg_of_neg_of_pos (mul_neg_of_neg_of_pos hp h4)
      norm_num
    rw [hsnd]
    unfold clampQ
    split
    · right; rfl
    · split
      · rename_i hnlt hgt
        left
        linarith
      · left; linarith

/-- C7 witness: the monotonicity statement at the concrete dump with
`p = 10`. -/
theorem change_by_monotone_witness :
    ∃ vols : List ℚ,
      pw_dump cxDump (Action.changeBy 10) = Except.ok (PwOutput.runCommand 42
        { mute := false, volume := none, channel_volumes := some vols })
      ∧ ∀ pr ∈ ([(51:ℚ)/200] : List ℚ).zip vols,
          (0 < (10:ℚ) → pr.1 ≤ pr.2 ∨ pr.2 = 1) ∧ ((10:ℚ) < 0 → pr.2 ≤ pr.1 ∨ pr.2 = 0) :=
  change_by_monotone cxDump "sinkA" cxNodeRec ⟨1, 0, 1⟩ ⟨51/200, false, [51/200]⟩ 10
    rfl rfl rfl (by norm_num) rfl (by simp)

/-- C8: each mute action issues a command carrying only the `mute` key:
the serialised payload contains `mute` and contains neither `volume` nor
`channelVolumes` (they are absent keys, not nulls). -/
theorem mute_payload_fields (obj : List PipeWireObject) (sink : String)
    (node : PipeWireInterfaceNode) (vp : NodePropInfoTypeVolume) (st : NodePropVolume)
    (h1 : findDefaultSink obj = some sink) (h2 : findSinkNode obj sink = some node)
    (h3 : findVolumeProp node = some vp) (h4 : vp.max - vp.min > 0)
    (h5 : findVolumeStatus node = some st) (h6 : ¬ st.channel_volumes = []) :
    (pw_dump obj Action.muteOn
        = Except.ok (PwOutput.runCommand node.id ⟨true, none, none⟩)
      ∧ pw_dump obj Action.muteOff
        = Except.ok (PwOutput.runCommand node.id ⟨false, none, none⟩)
      ∧ pw_dump obj Action.muteToggle
        = Except.ok (PwOutput.runCommand node.id ⟨!st.mute, none, none⟩))
    ∧ ∀ b : Bool,
        "mute" ∈ serializedKeys ⟨b, none, none⟩
        ∧ "volume" ∉ serializedKeys ⟨b, none, none⟩
        ∧ "channelVolumes" ∉ serializedKeys ⟨b, none, none⟩ := by
  refine ⟨⟨?_, ?_, ?_⟩, ?_⟩
  · rw [pw_dump_resolved obj Action.muteOn sink node vp st h1 h2 h3 h4 h5 h6]
  · rw [pw_dump_resolved obj Action.muteOff sink node vp st h1 h2 h3 h4 h5 h6]
  · rw [pw_dump_resolved obj Action.muteToggle sink node vp st h1 h2 h3 h4 h5 h6]
  · intro b
    refine ⟨?_, ?_, ?_⟩ <;> simp [serializedKeys, serializeCommand]

/-- C8 witness: the three mute commands on the concrete dump, and the
serialised key list of a mute-only payload. -/
theorem mute_payload_fields_witness :
    (pw_dump cxDump Action.muteOn
        = Except.ok (PwOutput.runCommand 42 ⟨true, none, none⟩)
      ∧ pw_dump cxDump Action.muteOff
        = Except.ok (PwOutput.runCommand 42 ⟨false, none, none⟩)
      ∧ pw_dump cxDump Action.muteToggle
        = Except.ok (PwOutput.runCommand 42 ⟨!false, none, none⟩))
    ∧ ∀ b : Bool,
        "mute" ∈ serializedKeys ⟨b, none, none⟩
        ∧ "volume" ∉ serializedKeys ⟨b, none, none⟩
        ∧ "channelVolumes" ∉ serializedKeys ⟨b, none, none⟩ :=
  mute_payload_fields cxDump "sinkA" cxNodeRec ⟨1, 0, 1⟩ ⟨51/200, false, [51/200]⟩
    rfl rfl rfl (by norm_num) rfl (by simp)

/-- C10: whatever the action, every command payload `pw_dump` issues has
an unset `volume` field, so no serialisation ever contains a `volume`
key; the key list is `mute` alone or `mute` with `channelVolumes`. -/
theorem volume_field_never_serialized (obj : List PipeWireObject) (act : Action)
    (nid : Int) (c : PipeWireCommand)
    (h : pw_dump obj act = Except.ok (PwOutput.runCommand nid c)) :
    c.volume = none ∧ "volume" ∉ serializedKeys c
      ∧ (serializedKeys c = ["mute"] ∨ serializedKeys c = ["mute", "channelVolumes"]) := by
  unfold pw_dump at h
  repeat' split at h
  all_goals simp at h
  all_goals obtain ⟨hnid, hc⟩ := h
  all_goals subst hc
  · exact ⟨rfl, by simp [serializedKeys, serializeCommand], Or.inl rfl⟩
  · exact ⟨rfl, by simp [serializedKeys, serializeCommand], Or.inl rfl⟩
  · exact ⟨rfl, by simp [serializedKeys, serializeCommand], Or.inl rfl⟩
  · exact ⟨rfl, by simp [serializedKeys, serializeCommand], Or.inr rfl⟩

/-- C10 witness: the mute-on payload on the concrete dump has no volume
field and serialises with key list `["mute"]`. -/
theorem volume_field_never_serialized_witness :
    PipeWireCommand.volume ⟨true, none, none⟩ = none
      ∧ "volume" ∉ serializedKeys ⟨true, none, none⟩
      ∧ (serializedKeys ⟨true, none, none⟩ = ["mute"]
          ∨ serializedKeys ⟨true, none, none⟩ = ["mute", "channelVolumes"]) :=
  volume_field_never_serialized cxDump Action.muteOn 42 ⟨true, none, none⟩
    (by
      rw [pw_dump_resolved cxDump Action.muteOn "sinkA" cxNodeRec ⟨1, 0, 1⟩
          ⟨51/200, false, [51/200]⟩ rfl rfl rfl (by norm_num) rfl (by simp)]
      rfl)

/-- C5: parsing the dump never fails because of objects matching neither
recognised shape — such an object becomes the catch-all `value` variant,
it appears in the parsed dump, and every other object of the dump is
still parsed (the output has one entry per input object). -/
theorem unrecognized_objects_parse (js : List Json) (j : Json) (hj : j ∈ js)
    (hm : parseMetadataObject j = none) (hn : parseNodeObject j = none) :
    (parseDump js).length = js.length
      ∧ parsePipeWireObject j = PipeWireObject.value j
      ∧ PipeWireObject.value j ∈ parseDump js := by
  have hval : parsePipeWireObject j = PipeWireObject.value j := by
    unfold parsePipeWireObject
    rw [hm, hn]
  refine ⟨by simp [parseDump], hval, ?_⟩
  have hmem := List.mem_map_of_mem parsePipeWireObject hj
  rw [hval] at hmem
  simpa [parseDump] using hmem

/-- C5 witness: a bare JSON string in the dump matches neither shape, is
kept as the catch-all variant, and the one-element dump still parses. -/
theorem unrecognized_objects_parse_witness :
    (parseDump [Json.str "x"]).length = ([Json.str "x"] : List Json).length
      ∧ parsePipeWireObject (Json.str "x") = PipeWireObject.value (Json.str "x")
      ∧ PipeWireObject.value (Json.str "x") ∈ parseDump [Json.str "x"] :=
  unrecognized_objects_parse [Json.str "x"] (Json.str "x") (by simp) rfl rfl

/-- C9: a JSON object carrying a `node.name` that matches the default
sink but lacking the required `EnumFormat` params field parses as the
catch-all variant rather than failing, so resolution on such a dump
reports `sinkNodeNotFound` (not the more specific `noVolumeRange` or
`noVolumeState`); likewise a malformed metadata object parses as the
catch-all and resolution reports `noDefaultSink`. -/
theorem partial_node_unrecognized :
    parsePipeWireObject examplePartialNodeJson = PipeWireObject.value examplePartialNodeJson
      ∧ pw_dump (parseDump [exampleMetaJson, examplePartialNodeJson]) Action.status
          = Except.error (PwError.sinkNodeNotFound "mysink")
      ∧ parsePipeWireObject exampleBadMetaJson = PipeWireObject.value exampleBadMetaJson
      ∧ pw_dump (parseDump [exampleBadMetaJson]) Action.status
          = Except.error PwError.noDefaultSink :=
  ⟨rfl, rfl, rfl, rfl⟩

end PwVolume
